import Mathlib

/-!
Shallow embedding of `scripts/create-dmg-background.py`, a one-shot
generator that paints a flat-colored 800×450 canvas, draws two centered,
drop-shadowed instruction lines when a font could be loaded, and saves the
result as a PNG at the fixed relative path `scripts/dmg-background.png`.

The outcomes of the fallible Pillow calls (`ImageFont.truetype`,
`ImageFont.load_default`) and the font metrics (`draw.textbbox`) are
supplied by an `Env` record, so a run of the script is a pure function of
that environment and of the starting filesystem.
-/

namespace DMGBackground

/-- A handle produced by `ImageFont.truetype(path, size)`: the font file
path and the requested point size. -/
structure TruetypeFont where
  path : String
  size : Nat
deriving DecidableEq, Repr

/-- A resolved font handle: either a named TrueType font or the library
default font returned by `ImageFont.load_default()` (whose size is fixed
by the library, not by the caller). -/
inductive Font where
  | truetype (f : TruetypeFont)
  | load_default
deriving DecidableEq, Repr

/-- Which fallback tier a resolved font came from: tier 1 is the named
system font, tier 2 the library default font. -/
def Font.tier : Font → Nat
  | .truetype _ => 1
  | .load_default => 2

/-- The bounding box returned by `draw.textbbox`: left, top, right, bottom
pixel bounds of the rendered text. -/
structure BBox where
  left : Int
  top : Int
  right : Int
  bottom : Int
deriving DecidableEq, Repr

/-- The ambient environment of one run: whether each fallible font-loading
call succeeds (`false` means the call raises), and the text metrics the
imaging library reports for a string rendered with a given font at a given
anchor. -/
structure Env where
  truetype_large_ok : Bool
  truetype_small_ok : Bool
  load_default_large_ok : Bool
  load_default_small_ok : Bool
  textbbox : Int × Int → String → Font → BBox

/-- Canvas width, from `width, height = 800, 450`. -/
def width : Int := 800

/-- Canvas height, from `width, height = 800, 450`. -/
def height : Int := 450

/-- The named system font path tried first. -/
def helveticaPath : String := "/System/Library/Fonts/Helvetica.ttc"

/-- An in-memory Pillow image: mode, (width, height), fill color. -/
structure Image where
  mode : String
  size : Int × Int
  color : String
deriving DecidableEq, Repr

/-- `Image.new(mode, size, color)`. -/
def Image.new (mode : String) (size : Int × Int) (color : String) : Image :=
  ⟨mode, size, color⟩

/-- One `draw.text(xy, text, fill, font)` call recorded in order. -/
structure TextOp where
  xy : Int × Int
  text : String
  fill : String
  font : Font
deriving DecidableEq, Repr

/-- Lines 23–34 of the source: the nested try/except font fallback.
Tier 1 (`ImageFont.truetype` at 24 then 16) succeeds only if both calls
succeed; any exception falls into the outer `except`, where tier 2 tries
`ImageFont.load_default()` twice; any exception there lands in the inner
`except`, which sets both handles to `None`. -/
def resolveFonts (env : Env) : Option Font × Option Font :=
  if env.truetype_large_ok && env.truetype_small_ok then
    (some (Font.truetype ⟨helveticaPath, 24⟩), some (Font.truetype ⟨helveticaPath, 16⟩))
  else if env.load_default_large_ok && env.load_default_small_ok then
    (some Font.load_default, some Font.load_default)
  else
    (none, none)

/-- The main instruction line. -/
def text1 : String := "Drag VTSApp to Applications"

/-- The sub-instruction line. -/
def text2 : String := "Install VTS by dragging the app to the Applications folder"

/-- Lines 37–57 of the source: the `if font_large and font_small:` block.
Each line's width is measured with `draw.textbbox((0, 0), ...)`, the x
coordinate is the Python floor division `(width - text_width) // 2`
(`Int.fdiv`), and each line is drawn twice: the shadow copy offset by
(+1, +1) in the lighter color first, then the primary text. When either
font handle is `None` no text is drawn. -/
def drawTextOps (env : Env) : List TextOp :=
  match resolveFonts env with
  | (some font_large, some font_small) =>
    let text1_bbox := env.textbbox (0, 0) text1 font_large
    let text1_width := text1_bbox.right - text1_bbox.left
    let text1_x := Int.fdiv (width - text1_width) 2
    let text1_y := height - 120
    let text2_bbox := env.textbbox (0, 0) text2 font_small
    let text2_width := text2_bbox.right - text2_bbox.left
    let text2_x := Int.fdiv (width - text2_width) 2
    let text2_y := text1_y + 35
    [⟨(text1_x + 1, text1_y + 1), text1, "#cccccc", font_large⟩,
     ⟨(text1_x, text1_y), text1, "#333333", font_large⟩,
     ⟨(text2_x + 1, text2_y + 1), text2, "#dddddd", font_small⟩,
     ⟨(text2_x, text2_y), text2, "#666666", font_small⟩]
  | _ => []

/-- What `img.save(path, 'PNG')` persists: the encoding format, the image
mode, its dimensions, the flat background color, and the recorded text
draws (empty means a blank flat-colored image). -/
structure FileData where
  format : String
  mode : String
  size : Int × Int
  background : String
  textOps : List TextOp
deriving DecidableEq, Repr

/-- Split a character list at every `/`. -/
def splitOnSlash : List Char → List (List Char)
  | [] => [[]]
  | c :: cs =>
    match splitOnSlash cs with
    | [] => if c = '/' then [[], [c]] else [[c]]
    | r :: rs => if c = '/' then [] :: r :: rs else (c :: r) :: rs

/-- The parent directory of a relative path: all components but the last. -/
def dirname (p : String) : String :=
  String.intercalate "/" (((splitOnSlash p.toList).dropLast).map (fun cs => String.mk cs))

/-- The filesystem visible to the script: the set of existing directories
and the files on disk, newest write first. -/
structure FS where
  dirs : List String
  files : List (String × FileData)
deriving DecidableEq, Repr

/-- `img.save(path, 'PNG')`: writes (or overwrites) the file when the
parent directory exists, otherwise raises `FileNotFoundError`. -/
def FS.save (fs : FS) (path : String) (file : FileData) : Except String FS :=
  if dirname path ∈ fs.dirs then
    Except.ok { fs with files := (path, file) :: fs.files }
  else
    Except.error "FileNotFoundError"

/-- `os.makedirs(dir, exist_ok=True)`: creates the directory if missing
and never raises. -/
def makedirs (fs : FS) (dir : String) : FS :=
  if dir ∈ fs.dirs then fs else { fs with dirs := dir :: fs.dirs }

/-- The fixed output path of the generated image. -/
def output_path : String := "scripts/dmg-background.png"

/-- What `create_dmg_background()` produces when it returns normally: the
filesystem after the save, the lines printed, and the returned path. -/
structure CreateResult where
  fs : FS
  stdout : List String
  returned : String
deriving DecidableEq, Repr

/-- Lines 14–65 of the source, as a function of the environment and the
filesystem. Allocates the RGB 800×450 canvas filled with `#f5f5f7`,
records the text draws, then saves; a save failure propagates as an
uncaught exception (`Except.error`). The function itself never touches
`fs.dirs`. -/
def create_dmg_background (env : Env) (fs : FS) : Except String CreateResult :=
  let img := Image.new "RGB" (width, height) "#f5f5f7"
  let ops := drawTextOps env
  match fs.save output_path ⟨"PNG", img.mode, img.size, img.color, ops⟩ with
  | Except.error e => Except.error e
  | Except.ok fs2 =>
    Except.ok ⟨fs2,
      ["✅ DMG background created: " ++ output_path,
       "   Size: " ++ toString width ++ "x" ++ toString height ++ " pixels"],
      output_path⟩

/-- The diagnostic printed when `from PIL import ...` raises ImportError. -/
def importErrorMessage : String := "PIL (Pillow) not found. Install with: pip install Pillow"

/-- The observable outcome of one process run: exit code, final
filesystem, and everything printed. -/
structure ScriptResult where
  exitCode : Int
  fs : FS
  stdout : List String
deriving DecidableEq, Repr

/-- The whole script: the import guard of lines 7–12 and the `__main__`
block of lines 67–73. If the import fails the script prints the
diagnostic and exits 1 before touching the filesystem; otherwise it runs
`os.makedirs('scripts', exist_ok=True)`, then `create_dmg_background()`,
and exits 0 (an exception escaping the call would end the interpreter
with exit code 1). -/
def runScript (pilAvailable : Bool) (env : Env) (fs : FS) : ScriptResult :=
  if pilAvailable then
    let fs1 := makedirs fs "scripts"
    match create_dmg_background env fs1 with
    | Except.ok r =>
      ⟨0, r.fs, r.stdout ++
        ["", "📦 Background is ready for DMG creation!",
         "   The background will show installation instructions and an arrow."]⟩
    | Except.error e => ⟨1, fs1, [e]⟩
  else
    ⟨1, fs, [importErrorMessage]⟩

/-- The numeric value of a `#rrggbb` hex color string; for the gray colors
used here a larger value is a lighter shade. -/
def hexColorVal (s : String) : Nat :=
  (s.toList.drop 1).foldl
    (fun a c => 16 * a + (if c.isDigit then c.toNat - 48 else c.toNat - 87)) 0

/-- Degenerate metrics: every bounding box is empty. -/
def bboxZero : Int × Int → String → Font → BBox :=
  fun _ _ _ => ⟨0, 0, 0, 0⟩

/-- An environment where every font-loading call succeeds. -/
def envAllOk : Env :=
  ⟨true, true, true, true, bboxZero⟩

/-- An environment where the named-font tier fails (the second truetype
call raises) and the default-font tier succeeds. -/
def envDefaultOnly : Env :=
  ⟨true, false, true, true, bboxZero⟩

/-- An environment where every font-loading call raises. -/
def envNoFont : Env :=
  ⟨false, false, false, false, bboxZero⟩

/-- A filesystem where the `scripts` directory already exists. -/
def fs0 : FS := ⟨["scripts"], []⟩

/-- An empty filesystem: no directories, no files. -/
def fsEmpty : FS := ⟨[], []⟩

/-- Whether a call to the generation procedure returned normally. -/
def isOkRun : Except String CreateResult → Bool
  | Except.ok _ => true
  | Except.error _ => false

/-- The parent directory of the output path is `scripts`. -/
theorem dirname_output_path : dirname output_path = "scripts" := by decide

/-- After `makedirs fs "scripts"` the `scripts` directory exists. -/
theorem mem_makedirs (fs : FS) : "scripts" ∈ (makedirs fs "scripts").dirs := by
  unfold makedirs
  split
  · assumption
  · exact List.mem_cons_self _ _

/-- `makedirs` is idempotent. -/
theorem makedirs_idem (fs : FS) (d : String) :
    makedirs (makedirs fs d) d = makedirs fs d := by
  unfold makedirs
  split
  · simp_all
  · simp [List.mem_cons]

/-- When the parent directory exists, `create_dmg_background` succeeds and
writes the canvas with its recorded text draws to the output path. -/
theorem create_ok (env : Env) (fs : FS) (h : "scripts" ∈ fs.dirs) :
    create_dmg_background env fs =
      Except.ok ⟨{ fs with files :=
            (output_path, ⟨"PNG", "RGB", (width, height), "#f5f5f7", drawTextOps env⟩)
              :: fs.files },
        ["✅ DMG background created: " ++ output_path,
         "   Size: " ++ toString width ++ "x" ++ toString height ++ " pixels"],
        output_path⟩ := by
  unfold create_dmg_background FS.save
  rw [dirname_output_path]
  simp [h, Image.new]

/-- When the parent directory is missing, the save raises and the
exception escapes `create_dmg_background`. -/
theorem create_err (env : Env) (fs : FS) (h : "scripts" ∉ fs.dirs) :
    create_dmg_background env fs = Except.error "FileNotFoundError" := by
  unfold create_dmg_background FS.save
  rw [dirname_output_path]
  simp [h]

/-- When the import succeeds, the whole run creates the directory, writes
the canvas at the output path, and exits 0. -/
theorem runScript_true (env : Env) (fs : FS) :
    runScript true env fs =
      ⟨0, { makedirs fs "scripts" with files :=
          (output_path, ⟨"PNG", "RGB", (width, height), "#f5f5f7", drawTextOps env⟩)
            :: (makedirs fs "scripts").files },
        ["✅ DMG background created: " ++ output_path,
         "   Size: " ++ toString width ++ "x" ++ toString height ++ " pixels",
         "", "📦 Background is ready for DMG creation!",
         "   The background will show installation instructions and an arrow."]⟩ := by
  simp [runScript, create_ok env (makedirs fs "scripts") (mem_makedirs fs)]

/-- Claim C1: every run in which the import succeeds completes normally
with exit code 0, and the image written at the fixed relative path
`scripts/dmg-background.png` is a PNG in RGB mode of exactly 800×450
pixels, whatever the font environment — any fallback tier, including the
no-font tier. -/
theorem run_writes_png_rgb_800x450 (env : Env) (fs : FS) :
    (runScript true env fs).exitCode = 0 ∧
    ∃ file, List.lookup output_path (runScript true env fs).fs.files = some file ∧
      file.format = "PNG" ∧ file.mode = "RGB" ∧ file.size = (800, 450) := by
  rw [runScript_true]
  refine ⟨rfl,
    ⟨"PNG", "RGB", (width, height), "#f5f5f7", drawTextOps env⟩, ?_, rfl, rfl, rfl⟩
  simp [List.lookup]

/-- Claim C2: font resolution is a three-tier ordered fallback where the
first success wins — the named system font at 24pt (primary) and 16pt
(secondary), then the library default font for both, then no font — every
exception raised while loading fonts only moves resolution to the next
tier, and no font-loading failure escapes: with the output directory
present, generation returns normally under every font environment. -/
theorem font_fallback_first_success_wins (env : Env) :
    ((env.truetype_large_ok && env.truetype_small_ok) = true →
      resolveFonts env = (some (Font.truetype ⟨helveticaPath, 24⟩),
        some (Font.truetype ⟨helveticaPath, 16⟩))) ∧
    ((env.truetype_large_ok && env.truetype_small_ok) = false →
      (env.load_default_large_ok && env.load_default_small_ok) = true →
      resolveFonts env = (some Font.load_default, some Font.load_default)) ∧
    ((env.truetype_large_ok && env.truetype_small_ok) = false →
      (env.load_default_large_ok && env.load_default_small_ok) = false →
      resolveFonts env = (none, none)) ∧
    (∀ fs : FS, "scripts" ∈ fs.dirs →
      ∃ r, create_dmg_background env fs = Except.ok r) := by
  refine ⟨fun h1 => ?_, fun h1 h2 => ?_, fun h1 h2 => ?_,
    fun fs h => ⟨_, create_ok env fs h⟩⟩
  · simp [resolveFonts, h1]
  · simp [resolveFonts, h1, h2]
  · simp [resolveFonts, h1, h2]

/-- Witness for C2 at the three concrete environments (all tiers succeed;
only the default tier succeeds; no tier succeeds) and a concrete
filesystem where the directory exists. -/
theorem font_fallback_first_success_wins_witness :
    resolveFonts envAllOk = (some (Font.truetype ⟨helveticaPath, 24⟩),
      some (Font.truetype ⟨helveticaPath, 16⟩)) ∧
    resolveFonts envDefaultOnly = (some Font.load_default, some Font.load_default) ∧
    resolveFonts envNoFont = (none, none) ∧
    isOkRun (create_dmg_background envNoFont fs0) = true := by
  refine ⟨(font_fallback_first_success_wins envAllOk).1 rfl,
    (font_fallback_first_success_wins envDefaultOnly).2.1 rfl rfl,
    (font_fallback_first_success_wins envNoFont).2.2.1 rfl rfl, ?_⟩
  obtain ⟨r, hr⟩ := (font_fallback_first_success_wins envNoFont).2.2.2 fs0 (by decide)
  rw [hr]
  rfl

/-- Claim C3: when no font resolves (both handles are `None`), no text is
drawn, the run still exits 0, and the output file is the blank
flat-colored RGB image of the correct 800×450 dimensions. -/
theorem no_font_blank_image_exit_zero (env : Env) (fs : FS)
    (h : resolveFonts env = (none, none)) :
    (runScript true env fs).exitCode = 0 ∧
    List.lookup output_path (runScript true env fs).fs.files =
      some ⟨"PNG", "RGB", (800, 450), "#f5f5f7", []⟩ := by
  have hops : drawTextOps env = [] := by unfold drawTextOps; rw [h]
  rw [runScript_true, hops]
  exact ⟨rfl, by simp [List.lookup, width, height]⟩

/-- Witness for C3: the environment where every font-loading call raises,
run on the empty filesystem. -/
theorem no_font_blank_image_exit_zero_witness :
    (runScript true envNoFont fsEmpty).exitCode = 0 ∧
    List.lookup output_path (runScript true envNoFont fsEmpty).fs.files =
      some ⟨"PNG", "RGB", (800, 450), "#f5f5f7", []⟩ :=
  no_font_blank_image_exit_zero envNoFont fsEmpty rfl

/-- Claim C6: if the imaging library import fails, the script prints the
diagnostic and exits 1 immediately, before touching the filesystem; and
whenever the import succeeds the run exits 0 — the import failure is the
only fatal condition. -/
theorem import_guard_exit_codes (env : Env) (fs : FS) :
    runScript false env fs = ⟨1, fs, [importErrorMessage]⟩ ∧
    (runScript true env fs).exitCode = 0 := by
  refine ⟨rfl, ?_⟩
  rw [runScript_true]

/-- Claim C7: running the generator when the `scripts` directory already
exists gives exactly the same result (same exit code, same files, same
output) as when it is absent, and directory creation never errors —
`makedirs` is total and idempotent. -/
theorem makedirs_idempotent_run (env : Env) (fs : FS) :
    runScript true env (makedirs fs "scripts") = runScript true env fs ∧
    makedirs (makedirs fs "scripts") "scripts" = makedirs fs "scripts" := by
  refine ⟨?_, makedirs_idem fs "scripts"⟩
  rw [runScript_true, runScript_true, makedirs_idem]

/-- Claim C4: for each line drawn with a resolved font, the horizontal
start is the integer division (canvas_width − measured_text_width) // 2 —
so the two horizontal margins around the measured width differ by at most
one pixel — and the vertical positions are fixed: line 1 at height − 120,
line 2 at line1_y + 35. -/
theorem text_centering_and_fixed_vertical (env : Env) (fl fsm : Font)
    (h : resolveFonts env = (some fl, some fsm)) :
    (drawTextOps env)[1]? = some
      ⟨(Int.fdiv (width - ((env.textbbox (0, 0) text1 fl).right -
          (env.textbbox (0, 0) text1 fl).left)) 2, height - 120),
        text1, "#333333", fl⟩ ∧
    (drawTextOps env)[3]? = some
      ⟨(Int.fdiv (width - ((env.textbbox (0, 0) text2 fsm).right -
          (env.textbbox (0, 0) text2 fsm).left)) 2, (height - 120) + 35),
        text2, "#666666", fsm⟩ ∧
    (∀ w : Int,
      |Int.fdiv (width - w) 2 - (width - (Int.fdiv (width - w) 2 + w))| ≤ 1) := by
  refine ⟨?_, ?_, fun w => ?_⟩
  · unfold drawTextOps; rw [h]; rfl
  · unfold drawTextOps; rw [h]; rfl
  · rw [Int.fdiv_eq_ediv, abs_le]
    · omega
    · norm_num

/-- Witness for C4: with every tier succeeding and empty metrics, the
primary pass of line 1 sits at (400, 330) — dead center for width 0 — and
the all-widths centering bound holds at width 100. -/
theorem text_centering_and_fixed_vertical_witness :
    (drawTextOps envAllOk)[1]? = some
      ⟨(400, 330), text1, "#333333", Font.truetype ⟨helveticaPath, 24⟩⟩ ∧
    |Int.fdiv (width - 100) 2 - (width - (Int.fdiv (width - 100) 2 + 100))| ≤ 1 :=
  ⟨(text_centering_and_fixed_vertical envAllOk _ _ rfl).1,
   (text_centering_and_fixed_vertical envAllOk _ _ rfl).2.2 100⟩

/-- Claim C5: whenever a font resolves, each of the two lines is drawn
exactly twice in a fixed order: first a copy offset by one pixel in both
x and y in the lighter shade (the simulated drop shadow), then the
primary darker text at the unoffset position; the shadow colors #cccccc
and #dddddd are numerically lighter than the text colors #333333 and
#666666. -/
theorem shadow_then_text_order (env : Env) (fl fsm : Font)
    (h : resolveFonts env = (some fl, some fsm)) :
    drawTextOps env =
      [⟨(Int.fdiv (width - ((env.textbbox (0, 0) text1 fl).right -
            (env.textbbox (0, 0) text1 fl).left)) 2 + 1, (height - 120) + 1),
          text1, "#cccccc", fl⟩,
       ⟨(Int.fdiv (width - ((env.textbbox (0, 0) text1 fl).right -
            (env.textbbox (0, 0) text1 fl).left)) 2, height - 120),
          text1, "#333333", fl⟩,
       ⟨(Int.fdiv (width - ((env.textbbox (0, 0) text2 fsm).right -
            (env.textbbox (0, 0) text2 fsm).left)) 2 + 1, ((height - 120) + 35) + 1),
          text2, "#dddddd", fsm⟩,
       ⟨(Int.fdiv (width - ((env.textbbox (0, 0) text2 fsm).right -
            (env.textbbox (0, 0) text2 fsm).left)) 2, (height - 120) + 35),
          text2, "#666666", fsm⟩] ∧
    hexColorVal "#333333" < hexColorVal "#cccccc" ∧
    hexColorVal "#666666" < hexColorVal "#dddddd" := by
  refine ⟨?_, by decide, by decide⟩
  unfold drawTextOps
  rw [h]

/-- Witness for C5: the concrete draw list when every tier succeeds and
all bounding boxes are empty. -/
theorem shadow_then_text_order_witness :
    drawTextOps envAllOk =
      [⟨(401, 331), text1, "#cccccc", Font.truetype ⟨helveticaPath, 24⟩⟩,
       ⟨(400, 330), text1, "#333333", Font.truetype ⟨helveticaPath, 24⟩⟩,
       ⟨(401, 366), text2, "#dddddd", Font.truetype ⟨helveticaPath, 16⟩⟩,
       ⟨(400, 365), text2, "#666666", Font.truetype ⟨helveticaPath, 16⟩⟩] ∧
    hexColorVal "#333333" < hexColorVal "#cccccc" ∧
    hexColorVal "#666666" < hexColorVal "#dddddd" :=
  shadow_then_text_order envAllOk _ _ rfl

/-- Counterexample for C8: when the named-font tier fails and the default
tier succeeds, text is drawn, but the primary line uses the library
default font, which is not the named font at 24pt (and the secondary line
is not smaller: every op uses the same default font). -/
theorem primary_font_not_24pt_counterexample :
    (drawTextOps envDefaultOnly).map TextOp.font =
      [Font.load_default, Font.load_default, Font.load_default, Font.load_default] ∧
    Font.load_default ≠ Font.truetype ⟨helveticaPath, 24⟩ := by
  decide

/-- Amended C8: the primary line is rendered with the named system font at
24pt and the secondary with it at 16pt exactly when the named-font tier
succeeds; when resolution falls back to the default tier, both lines use
the library default font at its library-fixed size. -/
theorem fonts_by_tier (env : Env) :
    ((env.truetype_large_ok && env.truetype_small_ok) = true →
      (drawTextOps env).map TextOp.font =
        [Font.truetype ⟨helveticaPath, 24⟩, Font.truetype ⟨helveticaPath, 24⟩,
         Font.truetype ⟨helveticaPath, 16⟩, Font.truetype ⟨helveticaPath, 16⟩]) ∧
    ((env.truetype_large_ok && env.truetype_small_ok) = false →
      (env.load_default_large_ok && env.load_default_small_ok) = true →
      (drawTextOps env).map TextOp.font =
        [Font.load_default, Font.load_default, Font.load_default, Font.load_default]) := by
  constructor
  · intro h1
    simp [drawTextOps, resolveFonts, h1]
  · intro h1 h2
    simp [drawTextOps, resolveFonts, h1, h2]

/-- Witness for C8's amended claim at the two concrete environments. -/
theorem fonts_by_tier_witness :
    (drawTextOps envAllOk).map TextOp.font =
      [Font.truetype ⟨helveticaPath, 24⟩, Font.truetype ⟨helveticaPath, 24⟩,
       Font.truetype ⟨helveticaPath, 16⟩, Font.truetype ⟨helveticaPath, 16⟩] ∧
    (drawTextOps envDefaultOnly).map TextOp.font =
      [Font.load_default, Font.load_default, Font.load_default, Font.load_default] :=
  ⟨(fonts_by_tier envAllOk).1 rfl, (fonts_by_tier envDefaultOnly).2 rfl rfl⟩

/-- Claim C9: after font resolution the large handle is `None` iff the
small handle is `None`, any two resolved handles come from the same
fallback tier, and consequently either both text lines are drawn or
neither is. -/
theorem fonts_same_tier_invariant (env : Env) :
    ((resolveFonts env).1 = none ↔ (resolveFonts env).2 = none) ∧
    (∀ a b, (resolveFonts env).1 = some a → (resolveFonts env).2 = some b →
      Font.tier a = Font.tier b) ∧
    ((∃ op ∈ drawTextOps env, op.text = text1) ↔
      (∃ op ∈ drawTextOps env, op.text = text2)) := by
  unfold drawTextOps resolveFonts
  split_ifs with h1 h2 <;> simp [Font.tier]

/-- Witness for C9: with both tiers available, the two resolved handles
share a tier. -/
theorem fonts_same_tier_invariant_witness :
    Font.tier (Font.truetype ⟨helveticaPath, 24⟩) =
      Font.tier (Font.truetype ⟨helveticaPath, 16⟩) :=
  (fonts_same_tier_invariant envAllOk).2.1 _ _ rfl rfl

/-- Claim C10: `create_dmg_background` never creates the output
directory — a successful call leaves the directory list unchanged — and
calling it directly when the `scripts` directory does not exist fails at
the save step with an uncaught FileNotFoundError; only the `__main__`
block creates the directory. -/
theorem create_does_not_make_directory (env : Env) (fs : FS) :
    (∀ r, create_dmg_background env fs = Except.ok r → r.fs.dirs = fs.dirs) ∧
    ("scripts" ∉ fs.dirs →
      create_dmg_background env fs = Except.error "FileNotFoundError") := by
  refine ⟨?_, create_err env fs⟩
  intro r hr
  by_cases hmem : "scripts" ∈ fs.dirs
  · rw [create_ok env fs hmem] at hr
    cases hr
    rfl
  · rw [create_err env fs hmem] at hr
    exact Except.noConfusion hr

/-- Witness for C10: a direct call on the empty filesystem fails with
FileNotFoundError, and a successful call on a filesystem that already has
the directory does not change the directory list. -/
theorem create_does_not_make_directory_witness :
    create_dmg_background envNoFont fsEmpty = Except.error "FileNotFoundError" ∧
    (⟨{ fs0 with files :=
          (output_path, ⟨"PNG", "RGB", (width, height), "#f5f5f7", drawTextOps envAllOk⟩)
            :: fs0.files },
      ["✅ DMG background created: " ++ output_path,
       "   Size: " ++ toString width ++ "x" ++ toString height ++ " pixels"],
      output_path⟩ : CreateResult).fs.dirs = fs0.dirs :=
  ⟨(create_does_not_make_directory envNoFont fsEmpty).2 (by decide),
   (create_does_not_make_directory envAllOk fs0).1 _ (create_ok envAllOk fs0 (by decide))⟩

end DMGBackground
